import Mathlib

/- Verification of the client-side dispatch core of rpcx-rs
   (src/rpcx_client/src/xclient.rs): server selection, lazy connection
   caching, and the FailMode failure-handling policies, for both the
   blocking (`call`) and non-blocking (`acall`) paths.

   The Connection (`Client` in client.rs) and the Selector are external
   collaborators of this core (spec section 6); they are embedded as oracles:
   a `World` fixes, for every server address, whether starting a connection
   succeeds and what the n-th invocation of that connection returns, and the
   selector is a stream of keys indexed by how many selections have been
   made.  Errors in the source are `rpcx_protocol::Error` values built with
   `Error::from(String)`; they are embedded as the underlying strings. -/

/-- `FailMode` from xclient.rs: the failure-handling policy fixed at
`XClient` construction. -/
inductive FailMode where
  | Failover
  | Failfast
  | Failtry
  | Failbackup
deriving DecidableEq, Repr

/-- `SelectMode` from xclient.rs: informational vocabulary naming selector
strategies; the dispatcher holds a concrete selector, not this enum. -/
inductive SelectMode where
  | RandomSelect
  | RoundRobin
  | WeightedRoundRobin
  | WeightedICMP
  | ConsistentHash
  | Closest
  | SelectByUser
deriving DecidableEq, Repr

/-- Modelled from the spec: `Opt` (CallOptions, client.rs is not part of the
verified sources) carries the connection-level options; the dispatch core
reads only its `retry` count (`self.opt.retry`) and copies the whole value
onto every connection it creates (`created_client.opt = self.opt`). -/
structure Opt where
  retry : Nat
deriving DecidableEq, Repr

/-- Modelled from the spec: a cached `Client` (Connection, client.rs) as the
dispatch core observes it: the address it was created from
(`Client::new(&items[1])`), the options copied onto it, and how many times
its `call`/`acall` has been invoked (the index into the behaviour oracle). -/
structure Client (R : Type) where
  addr : String
  opt : Opt
  calls : Nat
deriving DecidableEq, Repr

/-- Modelled from the spec: the environment of one run. `startErr a` is
`some e` when `Client::new(a).start()` fails with `e` and `none` when it
succeeds; `behavior a n` is the result of the n-th invocation (counted from
0) of the connection at address `a`.  The reply type `R` stands for the
generic `T : RpcxParam` of the source. -/
structure World (R : Type) where
  startErr : String → Option String
  behavior : String → Nat → Except String R

/-- The connection cache `clients: HashMap<String, RefCell<Client>>`,
embedded as an association list keyed by the server key. -/
abbrev Cache (R : Type) := List (String × Client R)

/-- The `XClient` dispatcher state: options, fail mode, connection cache,
and the selector embedded as a stream of keys together with the number of
`select` invocations already made. -/
structure XClient (R : Type) where
  opt : Opt
  fail_mode : FailMode
  clients : Cache R
  selector : Nat → String
  selectCount : Nat

/-- Split a character list at every occurrence of `sep`
(Rust `str::split`: `"".split(sep)` yields one empty piece). -/
def splitChars (sep : Char) : List Char → List Char → List (List Char)
  | [], acc => [acc.reverse]
  | c :: rest, acc =>
    if c = sep then acc.reverse :: splitChars sep rest []
    else splitChars sep rest (c :: acc)

/-- `k.split("@")` from get_cached_client, as a list of strings. -/
def splitOnAtSign (s : String) : List String :=
  (splitChars '@' s.data []).map (fun l => ⟨l⟩)

/-- The address a key is parsed to in get_cached_client:
`let mut items: Vec<&str> = k.split("@").collect();
 if items.len() == 1 { items.insert(0, "tcp"); }  ... &items[1]`. -/
def parseAddr (k : String) : String :=
  let items := splitOnAtSign k
  let items := if items.length = 1 then "tcp" :: items else items
  items.getD 1 ""

/-- Record one more invocation of the connection cached under key `k`
(the borrow-mut call through the cache entry advances that connection's
observable state by one step). -/
def cacheSetCalls {R : Type} : Cache R → String → Nat → Cache R
  | [], _, _ => []
  | (k', cl) :: rest, k, n =>
    if k' = k then (k', { cl with calls := n }) :: rest
    else (k', cl) :: cacheSetCalls rest k n

/-- The invocation count of the connection cached under `k`, if any. -/
def cacheCalls {R : Type} (c : Cache R) (k : String) : Option Nat :=
  (c.lookup k).map (fun cl => cl.calls)

/-- Whether an `Except` result is a success (`Result::is_ok`). -/
def isOkE {ε α : Type} : Except ε α → Bool
  | Except.ok _ => true
  | Except.error _ => false

/-- `XClient::get_cached_client` (xclient.rs lines 69-101): double-checked
lookup of `k`; on a double miss, parse the key into an address (network
part defaulting to `tcp`), create a connection with the dispatcher's
options and start it; on successful start insert it, on failed start
return the error without inserting; finally look the key up again,
returning the defensive error `"client still not found"` on a miss.
Returns the cached connection together with the updated cache. -/
def XClient.get_cached_client {R : Type} (w : World R) (opt : Opt)
    (clients_guard : Cache R) (k : String) :
    Except String (Client R × Cache R) :=
  match (match clients_guard.lookup k with
         | some _ => Except.ok clients_guard
         | none =>
           match clients_guard.lookup k with
           | some _ => Except.ok clients_guard
           | none =>
             match w.startErr (parseAddr k) with
             | some err => Except.error err
             | none =>
               Except.ok ((k, ⟨parseAddr k, opt, 0⟩) :: clients_guard)) with
  | Except.error e => Except.error e
  | Except.ok c =>
    match c.lookup k with
    | some cl => Except.ok (cl, c)
    | none => Except.error "client still not found"

/-- The `FailMode::Failtry` retry loop (xclient.rs lines 144-158):
`while retry > 0 { retry -= 1; rt = client.call(..); if rt.is_ok() return }`.
Given the remaining retry budget and the connection's current invocation
count, returns the first success found (or `none`) and the final
invocation count. -/
def failtry_loop {R : Type} (w : World R) (addr : String) :
    Nat → Nat → Option R × Nat
  | 0, calls => (none, calls)
  | retry + 1, calls =>
    match w.behavior addr calls with
    | Except.ok v => (some v, calls + 1)
    | Except.error _ => failtry_loop w addr retry (calls + 1)

/-- `XClient::call` (xclient.rs lines 105-165): select a key (empty key
fails with "server not found"), resolve the connection through
get_cached_client (propagating its error), invoke the connection once; a
one-way call returns that outcome immediately; otherwise, on an error, the
FailMode is consulted: Failover and Failbackup fall through (their arms are
empty), Failfast returns the result, Failtry runs the retry loop and
returns the first success it finds — otherwise the original first error
`rt` is returned by the final `Some(rt)`. -/
def XClient.call {R : Type} (w : World R) (x : XClient R) (is_oneway : Bool) :
    Option (Except String R) × XClient R :=
  let k := x.selector x.selectCount
  let x1 := { x with selectCount := x.selectCount + 1 }
  if k = "" then
    (some (Except.error "server not found"), x1)
  else
    match XClient.get_cached_client w x.opt x.clients k with
    | Except.error e => (some (Except.error e), x1)
    | Except.ok (cl, c) =>
      let rt := w.behavior cl.addr cl.calls
      let x2 := { x1 with clients := cacheSetCalls c k (cl.calls + 1) }
      if is_oneway then
        (some rt, x2)
      else
        match rt with
        | Except.ok _ => (some rt, x2)
        | Except.error _ =>
          match x.fail_mode with
          | FailMode.Failover => (some rt, x2)
          | FailMode.Failfast => (some rt, x2)
          | FailMode.Failtry =>
            match failtry_loop w cl.addr x.opt.retry (cl.calls + 1) with
            | (some v, n) =>
              (some (Except.ok v), { x1 with clients := cacheSetCalls c k n })
            | (none, n) =>
              (some rt, { x1 with clients := cacheSetCalls c k n })
          | FailMode.Failbackup => (some rt, x2)

/-- `XClient::acall` (xclient.rs lines 166-193): select a key (empty key
resolves to "server not found"), resolve the connection through
get_cached_client (propagating its error), and return the connection's
non-blocking call; no FailMode logic appears on this path.  The returned
future is embedded by the result it eventually resolves to. -/
def XClient.acall {R : Type} (w : World R) (x : XClient R) :
    Except String R × XClient R :=
  let k := x.selector x.selectCount
  let x1 := { x with selectCount := x.selectCount + 1 }
  if k = "" then
    (Except.error "server not found", x1)
  else
    match XClient.get_cached_client w x.opt x.clients k with
    | Except.error e => (Except.error e, x1)
    | Except.ok (cl, c) =>
      (w.behavior cl.addr cl.calls,
       { x1 with clients := cacheSetCalls c k (cl.calls + 1) })

/- Concrete environments used to evaluate the code at specific inputs. -/

/-- A world where server s1 always fails and every other server replies 7. -/
def wOver : World Nat :=
  ⟨fun _ => none, fun a _ => if a = "s1" then Except.error "primary down" else Except.ok 7⟩

/-- A Failover client over three candidate servers s1, s2, s3. -/
def xOver : XClient Nat :=
  ⟨⟨3⟩, FailMode.Failover, [], fun n => ["s1", "s2", "s3"].getD n "", 0⟩

/-- A world where server s1 never answers successfully and s2 replies 9. -/
def wBackup : World Nat :=
  ⟨fun _ => none, fun a _ => if a = "s1" then Except.error "timeout" else Except.ok 9⟩

/-- A Failbackup client over two candidate servers s1, s2. -/
def xBackup : XClient Nat :=
  ⟨⟨3⟩, FailMode.Failbackup, [], fun n => ["s1", "s2"].getD n "", 0⟩

/-- A connection whose first invocation fails with "a" and whose later
invocations fail with "b". -/
def wTwoErr : World Nat :=
  ⟨fun _ => none, fun _ n => if n = 0 then Except.error "a" else Except.error "b"⟩

/-- A Failtry client with retry budget 1 on server s. -/
def xTwoErr : XClient Nat :=
  ⟨⟨1⟩, FailMode.Failtry, [], fun _ => "s", 0⟩

/-- A connection that fails once with "first down" and then replies 42. -/
def wRecover : World Nat :=
  ⟨fun _ => none, fun _ n => if n = 0 then Except.error "first down" else Except.ok 42⟩

/-- A Failtry client with retry budget 1 on server s. -/
def xRecover : XClient Nat :=
  ⟨⟨1⟩, FailMode.Failtry, [], fun _ => "s", 0⟩

/-- A connection that always fails with "down". -/
def wDown : World Nat :=
  ⟨fun _ => none, fun _ _ => Except.error "down"⟩

/-- A Failtry client with retry budget 2 on server s. -/
def xDown : XClient Nat :=
  ⟨⟨2⟩, FailMode.Failtry, [], fun _ => "s", 0⟩

/-- A world whose connections can neither be started nor called; used to
show a cache hit consults the environment in no way. -/
def wAny : World Nat :=
  ⟨fun _ => some "unreachable", fun _ _ => Except.error "unreachable"⟩

/-- A one-entry cache holding a connection for key s. -/
def cacheOne : Cache Nat := [("s", ⟨"s", ⟨0⟩, 4⟩)]

/-- A world where no connection can be started. -/
def wRefuse : World Nat :=
  ⟨fun _ => some "connection refused", fun _ _ => Except.ok 0⟩

/-- A Failover client with an empty cache on server s. -/
def xRefuse : XClient Nat :=
  ⟨⟨3⟩, FailMode.Failover, [], fun _ => "s", 0⟩

/-- A client whose selector never finds a server. -/
def xNoServer : XClient Nat :=
  ⟨⟨3⟩, FailMode.Failtry, [("s", ⟨"s", ⟨0⟩, 4⟩)], fun _ => "", 0⟩

/-- A world whose connections always fail with "boom", starting cleanly. -/
def wBoom : World Nat :=
  ⟨fun _ => none, fun _ _ => Except.error "boom"⟩

/-- A Failfast client whose cache already holds a fresh connection for s. -/
def xFast : XClient Nat :=
  ⟨⟨5⟩, FailMode.Failfast, [("s", ⟨"s", ⟨5⟩, 0⟩)], fun _ => "s", 0⟩

/-- A Failtry client whose cache already holds a fresh connection for s;
used to show one-way calls skip the retry loop even with budget left. -/
def xOnewayTry : XClient Nat :=
  ⟨⟨5⟩, FailMode.Failtry, [("s", ⟨"s", ⟨5⟩, 0⟩)], fun _ => "s", 0⟩

/-- A world where every connection starts cleanly and replies 0. -/
def wClean : World Nat :=
  ⟨fun _ => none, fun _ _ => Except.ok 0⟩

/-- A Failfast client with an empty cache on server s. -/
def xFastErr : XClient Nat :=
  ⟨⟨2⟩, FailMode.Failfast, [], fun _ => "s", 0⟩

/- Helper lemmas. -/

/-- A cache hit returns the stored connection and leaves the cache as it
was, for every environment. -/
theorem gcc_hit {R : Type} (w : World R) (opt : Opt) (cache : Cache R)
    (k : String) (cl : Client R) (h : cache.lookup k = some cl) :
    XClient.get_cached_client w opt cache k = Except.ok (cl, cache) := by
  unfold XClient.get_cached_client
  simp [h]

/-- A cache miss whose connection fails to start propagates the start
error. -/
theorem gcc_start_fail {R : Type} (w : World R) (opt : Opt) (cache : Cache R)
    (k : String) (e : String) (h1 : cache.lookup k = none)
    (h2 : w.startErr (parseAddr k) = some e) :
    XClient.get_cached_client w opt cache k = Except.error e := by
  unfold XClient.get_cached_client
  simp [h1, h2]

/-- A cache miss whose connection starts cleanly inserts a fresh
connection under the key and returns it. -/
theorem gcc_create {R : Type} (w : World R) (opt : Opt) (cache : Cache R)
    (k : String) (h1 : cache.lookup k = none)
    (h2 : w.startErr (parseAddr k) = none) :
    XClient.get_cached_client w opt cache k =
      Except.ok (⟨parseAddr k, opt, 0⟩, (k, ⟨parseAddr k, opt, 0⟩) :: cache) := by
  unfold XClient.get_cached_client
  simp [h1, h2, List.lookup]

/-- When get_cached_client succeeds, the returned cache maps the key to the
returned connection. -/
theorem gcc_ok_lookup {R : Type} {w : World R} {opt : Opt} {cache : Cache R}
    {k : String} {cl : Client R} {c : Cache R}
    (h : XClient.get_cached_client w opt cache k = Except.ok (cl, c)) :
    c.lookup k = some cl := by
  unfold XClient.get_cached_client at h
  split at h
  · simp at h
  · split at h
    · rename_i hl
      injection h with h'
      injection h' with h1 h2
      subst h1; subst h2
      exact hl
    · simp at h

/-- Updating the invocation count of a cached connection is observable at
that key. -/
theorem cacheCalls_setCalls {R : Type} :
    ∀ (c : Cache R) (k : String) (n : Nat) (cl : Client R),
      c.lookup k = some cl → cacheCalls (cacheSetCalls c k n) k = some n := by
  intro c k n
  induction c with
  | nil => intro cl h; simp [List.lookup] at h
  | cons hd tl ih =>
    intro cl h
    obtain ⟨k', cl'⟩ := hd
    by_cases hk : k' = k
    · subst hk
      simp [cacheSetCalls, cacheCalls, List.lookup]
    · have hne : (k == k') = false := by
        simp [beq_eq_false_iff_ne]
        intro hkk; exact hk hkk.symm
      simp [List.lookup, hne] at h
      simp [cacheSetCalls, hk, cacheCalls, List.lookup, hne]
      have := ih cl h
      simpa [cacheCalls] using this

/-- If every attempt the retry loop can make fails, it finds no success and
uses its whole budget. -/
theorem failtry_loop_all_fail {R : Type} (w : World R) (addr : String) :
    ∀ (n c0 : Nat), (∀ i, i < n → isOkE (w.behavior addr (c0 + i)) = false) →
      failtry_loop w addr n c0 = (none, c0 + n) := by
  intro n
  induction n with
  | zero => intro c0 _; simp [failtry_loop]
  | succ m ih =>
    intro c0 h
    have h0 : isOkE (w.behavior addr c0) = false := by
      simpa using h 0 (Nat.succ_pos m)
    unfold failtry_loop
    cases hb : w.behavior addr c0 with
    | ok v => rw [hb] at h0; simp [isOkE] at h0
    | error e =>
      have harg : ∀ i, i < m → isOkE (w.behavior addr (c0 + 1 + i)) = false := by
        intro i hi
        have heq : c0 + 1 + i = c0 + (i + 1) := by omega
        rw [heq]
        exact h (i + 1) (by omega)
      rw [ih (c0 + 1) harg]
      simp only [Prod.mk.injEq]
      exact ⟨trivial, by omega⟩

/-- If attempt `j` of the retry loop is the first success, the loop returns
its value having used `j + 1` attempts. -/
theorem failtry_loop_first_ok {R : Type} (w : World R) (addr : String) :
    ∀ (n c0 j : Nat) (v : R), j < n →
      w.behavior addr (c0 + j) = Except.ok v →
      (∀ i, i < j → isOkE (w.behavior addr (c0 + i)) = false) →
      failtry_loop w addr n c0 = (some v, c0 + j + 1) := by
  intro n
  induction n with
  | zero => intro c0 j v hj; exact absurd hj (Nat.not_lt_zero j)
  | succ m ih =>
    intro c0 j v hj hok hfail
    cases j with
    | zero =>
      unfold failtry_loop
      simp only [Nat.add_zero] at hok
      rw [hok]
    | succ j' =>
      have h0 : isOkE (w.behavior addr c0) = false := by
        simpa using hfail 0 (Nat.succ_pos j')
      unfold failtry_loop
      cases hb : w.behavior addr c0 with
      | ok v' => rw [hb] at h0; simp [isOkE] at h0
      | error e =>
        have hok' : w.behavior addr (c0 + 1 + j') = Except.ok v := by
          have heq : c0 + 1 + j' = c0 + (j' + 1) := by omega
          rw [heq]; exact hok
        have hfail' : ∀ i, i < j' → isOkE (w.behavior addr (c0 + 1 + i)) = false := by
          intro i hi
          have heq : c0 + 1 + i = c0 + (i + 1) := by omega
          rw [heq]; exact hfail (i + 1) (by omega)
        rw [ih (c0 + 1) j' v (by omega) hok' hfail']
        simp only [Prod.mk.injEq]
        exact ⟨trivial, by omega⟩

/-- A successful get_cached_client either found the key (cache unchanged)
or created a fresh connection for it (consed onto the cache). -/
theorem gcc_ok_cases {R : Type} {w : World R} {opt : Opt} {cache : Cache R}
    {k : String} {cl : Client R} {c : Cache R}
    (h : XClient.get_cached_client w opt cache k = Except.ok (cl, c)) :
    (cache.lookup k = some cl ∧ c = cache) ∨
    (cache.lookup k = none ∧ w.startErr (parseAddr k) = none ∧
     cl = ⟨parseAddr k, opt, 0⟩ ∧ c = (k, cl) :: cache) := by
  cases hl : cache.lookup k with
  | some cl0 =>
    rw [gcc_hit w opt cache k cl0 hl] at h
    simp only [Except.ok.injEq, Prod.mk.injEq] at h
    obtain ⟨h1, h2⟩ := h
    subst h1; subst h2
    exact Or.inl ⟨rfl, rfl⟩
  | none =>
    cases hs : w.startErr (parseAddr k) with
    | some e =>
      rw [gcc_start_fail w opt cache k e hl hs] at h
      simp at h
    | none =>
      rw [gcc_create w opt cache k hl hs] at h
      simp only [Except.ok.injEq, Prod.mk.injEq] at h
      obtain ⟨h1, h2⟩ := h
      subst h1; subst h2
      exact Or.inr ⟨rfl, rfl, rfl, rfl⟩

/- Claim theorems. -/

/-- C4: at most one connection is ever created and stored per key: when
get_cached_client finds the key already present it returns the existing
entry and leaves the cache untouched, independently of the environment (so
no connection is constructed or started), and no later get_cached_client
call — for this or any other key, under any environment or options — ever
replaces the stored entry for that key. -/
theorem get_cached_client_hit_no_create {R : Type} (w : World R) (opt : Opt)
    (cache : Cache R) (k : String) (cl : Client R)
    (h : cache.lookup k = some cl) :
    XClient.get_cached_client w opt cache k = Except.ok (cl, cache) ∧
    (∀ (w' : World R) (opt' : Opt) (k' : String) (cl' : Client R) (c' : Cache R),
      XClient.get_cached_client w' opt' cache k' = Except.ok (cl', c') →
      c'.lookup k = some cl) := by
  refine ⟨gcc_hit w opt cache k cl h, ?_⟩
  intro w' opt' k' cl' c' hg
  rcases gcc_ok_cases hg with ⟨_, rfl⟩ | ⟨hnone, _, _, rfl⟩
  · exact h
  · have hne : k ≠ k' := by
      intro he
      rw [he, hnone] at h
      cases h
    have hbeq : (k == k') = false := beq_eq_false_iff_ne.mpr hne
    simp [List.lookup, hbeq]
    exact h

/-- C4 witness: with a cached connection for key s, a hit returns it
unchanged even in an environment where nothing can start, and creating a
connection for key t leaves the entry for s intact. -/
theorem get_cached_client_hit_no_create_witness :
    XClient.get_cached_client wAny ⟨0⟩ cacheOne "s" =
      Except.ok (⟨"s", ⟨0⟩, 4⟩, cacheOne) ∧
    (("t", (⟨"t", ⟨0⟩, 0⟩ : Client Nat)) :: cacheOne).lookup "s" =
      some ⟨"s", ⟨0⟩, 4⟩ :=
  ⟨(get_cached_client_hit_no_create wAny ⟨0⟩ cacheOne "s" ⟨"s", ⟨0⟩, 4⟩ rfl).1,
   (get_cached_client_hit_no_create wClean ⟨0⟩ cacheOne "s" ⟨"s", ⟨0⟩, 4⟩ rfl).2
     wClean ⟨0⟩ "t" ⟨"t", ⟨0⟩, 0⟩ (("t", ⟨"t", ⟨0⟩, 0⟩) :: cacheOne) rfl⟩

/-- C5: when the connection for a missing key fails to start,
get_cached_client propagates that error and `call` returns it with the
dispatcher state otherwise unchanged — in particular the cache mapping is
exactly what it was, so a later call for the same key attempts creation
again. -/
theorem start_failure_not_cached {R : Type} (w : World R) (x : XClient R)
    (e : String) (ow : Bool)
    (hk : x.selector x.selectCount ≠ "")
    (h1 : x.clients.lookup (x.selector x.selectCount) = none)
    (h2 : w.startErr (parseAddr (x.selector x.selectCount)) = some e) :
    XClient.get_cached_client w x.opt x.clients (x.selector x.selectCount) =
      Except.error e ∧
    XClient.call w x ow =
      (some (Except.error e), { x with selectCount := x.selectCount + 1 }) := by
  have hg := gcc_start_fail w x.opt x.clients _ e h1 h2
  refine ⟨hg, ?_⟩
  unfold XClient.call
  simp [hk, hg]

/-- C5 witness: a refused connection for key s propagates "connection
refused" and leaves the empty cache empty. -/
theorem start_failure_not_cached_witness :
    XClient.get_cached_client wRefuse (⟨3⟩ : Opt) ([] : Cache Nat) "s" =
      Except.error "connection refused" ∧
    XClient.call wRefuse xRefuse false =
      (some (Except.error "connection refused"),
       { xRefuse with selectCount := 1 }) :=
  start_failure_not_cached wRefuse xRefuse "connection refused" false
    (by decide) rfl rfl

/-- C6: when the selector yields the empty key, both `call` and `acall`
fail with "server not found" immediately, for every FailMode and both
one-way and two-way calls, with the cache (and everything else except the
selection counter) unchanged — no connection is created or invoked and no
retry happens. -/
theorem empty_key_server_not_found {R : Type} (w : World R) (x : XClient R)
    (ow : Bool) (hsel : x.selector x.selectCount = "") :
    XClient.call w x ow =
      (some (Except.error "server not found"),
       { x with selectCount := x.selectCount + 1 }) ∧
    XClient.acall w x =
      (Except.error "server not found",
       { x with selectCount := x.selectCount + 1 }) := by
  unfold XClient.call XClient.acall
  simp [hsel]

/-- C6 witness: a selector that finds no server makes `call` and `acall`
fail with "server not found" and leaves the cached connection untouched. -/
theorem empty_key_server_not_found_witness :
    XClient.call wClean xNoServer true =
      (some (Except.error "server not found"),
       { xNoServer with selectCount := 1 }) ∧
    XClient.acall wClean xNoServer =
      (Except.error "server not found",
       { xNoServer with selectCount := 1 }) :=
  empty_key_server_not_found wClean xNoServer true rfl

/-- C7: under Failfast a two-way call returns the first attempt's result —
success or error — unconditionally, and the connection is invoked exactly
once (its invocation count goes from `cl.calls` to `cl.calls + 1`). -/
theorem failfast_returns_first_result {R : Type} (w : World R) (x : XClient R)
    (cl : Client R) (c : Cache R)
    (hm : x.fail_mode = FailMode.Failfast)
    (hk : x.selector x.selectCount ≠ "")
    (hg : XClient.get_cached_client w x.opt x.clients (x.selector x.selectCount) =
      Except.ok (cl, c)) :
    XClient.call w x false =
      (some (w.behavior cl.addr cl.calls),
       { x with selectCount := x.selectCount + 1,
                clients := cacheSetCalls c (x.selector x.selectCount) (cl.calls + 1) }) ∧
    cacheCalls (XClient.call w x false).2.clients (x.selector x.selectCount) =
      some (cl.calls + 1) := by
  have hcall : XClient.call w x false =
      (some (w.behavior cl.addr cl.calls),
       { x with selectCount := x.selectCount + 1,
                clients := cacheSetCalls c (x.selector x.selectCount) (cl.calls + 1) }) := by
    unfold XClient.call
    cases hrt : w.behavior cl.addr cl.calls with
    | ok v => simp [hk, hg, hrt]
    | error e => simp [hk, hg, hrt, hm]
  refine ⟨hcall, ?_⟩
  rw [hcall]
  exact cacheCalls_setCalls c _ _ cl (gcc_ok_lookup hg)

/-- C7 witness: a Failfast call against a connection that fails with
"boom" returns exactly that error after a single invocation, despite a
retry budget of 5. -/
theorem failfast_returns_first_result_witness :
    XClient.call wBoom xFast false =
      (some (Except.error "boom"),
       { xFast with selectCount := 1, clients := [("s", ⟨"s", ⟨5⟩, 1⟩)] }) ∧
    cacheCalls (XClient.call wBoom xFast false).2.clients "s" = some 1 :=
  failfast_returns_first_result wBoom xFast ⟨"s", ⟨5⟩, 0⟩
    [("s", ⟨"s", ⟨5⟩, 0⟩)] rfl (by decide) rfl

/-- C8: a one-way call returns the send outcome — success or error —
directly after a single connection invocation, for every FailMode: no
retry logic runs even when the send errors. -/
theorem oneway_returns_send_outcome {R : Type} (w : World R) (x : XClient R)
    (cl : Client R) (c : Cache R)
    (hk : x.selector x.selectCount ≠ "")
    (hg : XClient.get_cached_client w x.opt x.clients (x.selector x.selectCount) =
      Except.ok (cl, c)) :
    XClient.call w x true =
      (some (w.behavior cl.addr cl.calls),
       { x with selectCount := x.selectCount + 1,
                clients := cacheSetCalls c (x.selector x.selectCount) (cl.calls + 1) }) ∧
    cacheCalls (XClient.call w x true).2.clients (x.selector x.selectCount) =
      some (cl.calls + 1) := by
  have hcall : XClient.call w x true =
      (some (w.behavior cl.addr cl.calls),
       { x with selectCount := x.selectCount + 1,
                clients := cacheSetCalls c (x.selector x.selectCount) (cl.calls + 1) }) := by
    unfold XClient.call
    simp [hk, hg]
  refine ⟨hcall, ?_⟩
  rw [hcall]
  exact cacheCalls_setCalls c _ _ cl (gcc_ok_lookup hg)

/-- C8 witness: a one-way call under Failtry with budget 5 against a
connection failing with "boom" still returns that error after exactly one
invocation — the retry loop never runs. -/
theorem oneway_returns_send_outcome_witness :
    XClient.call wBoom xOnewayTry true =
      (some (Except.error "boom"),
       { xOnewayTry with selectCount := 1, clients := [("s", ⟨"s", ⟨5⟩, 1⟩)] }) ∧
    cacheCalls (XClient.call wBoom xOnewayTry true).2.clients "s" = some 1 :=
  oneway_returns_send_outcome wBoom xOnewayTry ⟨"s", ⟨5⟩, 0⟩
    [("s", ⟨"s", ⟨5⟩, 0⟩)] (by decide) rfl

/-- C10: the defensive "client still not found" branch of get_cached_client
is unreachable: as long as the environment's start errors are not
themselves that very message, get_cached_client never returns it — after a
hit or a successful creation the final re-lookup always succeeds. -/
theorem client_still_not_found_unreachable {R : Type} (w : World R)
    (opt : Opt) (cache : Cache R) (k : String)
    (hw : ∀ a, w.startErr a ≠ some "client still not found") :
    XClient.get_cached_client w opt cache k ≠
      Except.error "client still not found" := by
  intro hcontra
  cases hl : cache.lookup k with
  | some cl =>
    rw [gcc_hit w opt cache k cl hl] at hcontra
    cases hcontra
  | none =>
    cases hs : w.startErr (parseAddr k) with
    | some e =>
      rw [gcc_start_fail w opt cache k e hl hs] at hcontra
      injection hcontra with he
      rw [he] at hs
      exact hw (parseAddr k) hs
    | none =>
      rw [gcc_create w opt cache k hl hs] at hcontra
      cases hcontra

/-- C10 witness: on an empty cache with a cleanly starting environment,
get_cached_client for key s does not return the defensive error. -/
theorem client_still_not_found_unreachable_witness :
    XClient.get_cached_client wClean (⟨0⟩ : Opt) ([] : Cache Nat) "s" ≠
      Except.error "client still not found" :=
  client_still_not_found_unreachable wClean ⟨0⟩ [] "s"
    (fun a => by simp [wClean])

/-- How `call` behaves under Failtry once the first attempt has failed: it
is entirely determined by the retry loop, which returns either a success
value or nothing — in which case the original first error is returned. -/
theorem call_failtry_eq {R : Type} (w : World R) (x : XClient R)
    (cl : Client R) (c : Cache R) (e0 : String)
    (hm : x.fail_mode = FailMode.Failtry)
    (hk : x.selector x.selectCount ≠ "")
    (hg : XClient.get_cached_client w x.opt x.clients (x.selector x.selectCount) =
      Except.ok (cl, c))
    (he : w.behavior cl.addr cl.calls = Except.error e0) :
    XClient.call w x false =
      (match failtry_loop w cl.addr x.opt.retry (cl.calls + 1) with
       | (some v, n) =>
         (some (Except.ok v),
          { x with selectCount := x.selectCount + 1,
                   clients := cacheSetCalls c (x.selector x.selectCount) n })
       | (none, n) =>
         (some (Except.error e0),
          { x with selectCount := x.selectCount + 1,
                   clients := cacheSetCalls c (x.selector x.selectCount) n })) := by
  unfold XClient.call
  simp only [hk, hg, he, hm, if_neg]
  cases hloop : failtry_loop w cl.addr x.opt.retry (cl.calls + 1) with
  | mk o n =>
    cases o <;> simp [hk]

/-- C2 counterexample: Failtry with retry budget 1 against a connection
that fails first with "a" and then with "b" makes both attempts (the
counter reaches 2 = N+1) but returns the FIRST attempt's error "a", not
the final attempt's error "b" as the claim states. -/
theorem failtry_returns_first_error_cex :
    (XClient.call wTwoErr xTwoErr false).1 = some (Except.error "a") ∧
    (XClient.call wTwoErr xTwoErr false).1 ≠ some (Except.error "b") ∧
    cacheCalls (XClient.call wTwoErr xTwoErr false).2.clients "s" = some 2 := by
  refine ⟨rfl, ?_, rfl⟩
  have h1 : (XClient.call wTwoErr xTwoErr false).1 = some (Except.error "a") := rfl
  rw [h1]
  intro h
  injection h with h'
  injection h' with h''
  exact absurd h'' (by decide)

/-- C2 (amended): under Failtry, after a failed first attempt the same
connection is re-invoked up to `retry` additional times and the first
success encountered is returned — with a connection failing K times then
succeeding, after exactly K+1 invocations — but when every attempt fails,
the error returned is the FIRST attempt's error (the source falls through
to the original `rt`), not the final attempt's, after exactly retry+1
invocations. -/
theorem failtry_amended {R : Type} (w : World R) (x : XClient R)
    (cl : Client R) (c : Cache R) (e0 : String)
    (hm : x.fail_mode = FailMode.Failtry)
    (hk : x.selector x.selectCount ≠ "")
    (hg : XClient.get_cached_client w x.opt x.clients (x.selector x.selectCount) =
      Except.ok (cl, c))
    (he : w.behavior cl.addr cl.calls = Except.error e0) :
    ((∀ i, i < x.opt.retry → isOkE (w.behavior cl.addr (cl.calls + 1 + i)) = false) →
       (XClient.call w x false).1 = some (Except.error e0) ∧
       cacheCalls (XClient.call w x false).2.clients (x.selector x.selectCount) =
         some (cl.calls + 1 + x.opt.retry)) ∧
    (∀ j v, j < x.opt.retry → w.behavior cl.addr (cl.calls + 1 + j) = Except.ok v →
       (∀ i, i < j → isOkE (w.behavior cl.addr (cl.calls + 1 + i)) = false) →
       (XClient.call w x false).1 = some (Except.ok v) ∧
       cacheCalls (XClient.call w x false).2.clients (x.selector x.selectCount) =
         some (cl.calls + 1 + j + 1)) := by
  have hkey := call_failtry_eq w x cl c e0 hm hk hg he
  have hlook := gcc_ok_lookup hg
  constructor
  · intro hall
    have hloop := failtry_loop_all_fail w cl.addr x.opt.retry (cl.calls + 1) hall
    rw [hkey, hloop]
    exact ⟨rfl, cacheCalls_setCalls c _ _ cl hlook⟩
  · intro j v hj hok hfail
    have hloop := failtry_loop_first_ok w cl.addr x.opt.retry (cl.calls + 1) j v hj hok hfail
    rw [hkey, hloop]
    exact ⟨rfl, cacheCalls_setCalls c _ _ cl hlook⟩

/-- C2 witness: Failtry with retry budget 2 against an always-failing
connection returns the first error "down" after exactly 3 = N+1
invocations. -/
theorem failtry_amended_witness :
    (XClient.call wDown xDown false).1 = some (Except.error "down") ∧
    cacheCalls (XClient.call wDown xDown false).2.clients "s" = some 3 :=
  (failtry_amended wDown xDown ⟨"s", ⟨2⟩, 0⟩ [("s", ⟨"s", ⟨2⟩, 0⟩)] "down"
      rfl (by decide) rfl rfl).1
    (fun i hi => rfl)

/-- C3 counterexample: with the same environment (a connection failing
once with "first down", then replying 42) and the same Failtry client with
retry budget 1, the blocking `call` retries and returns the success 42,
while `acall` resolves to the first error — the two paths do not agree, so
acall does not apply the FailMode rules of the blocking path. -/
theorem acall_no_failmode_cex :
    (XClient.call wRecover xRecover false).1 = some (Except.ok 42) ∧
    (XClient.acall wRecover xRecover).1 = Except.error "first down" ∧
    (XClient.call wRecover xRecover false).1 ≠
      some ((XClient.acall wRecover xRecover).1) := by
  refine ⟨rfl, rfl, ?_⟩
  have h1 : (XClient.call wRecover xRecover false).1 = some (Except.ok 42) := rfl
  have h2 : (XClient.acall wRecover xRecover).1 = Except.error "first down" := rfl
  rw [h1, h2]
  intro h
  injection h with h'
  cases h'

/-- C3 (amended): `acall` resolves to the first attempt's outcome with no
FailMode policy applied; its resolution — and the resulting dispatcher
state — coincides with the blocking `call` for every FailMode other than
Failtry (Failover, Failfast and Failbackup all return the first result on
the blocking path too), while under Failtry the two paths can differ as
soon as a retry would succeed. -/
theorem acall_matches_call_unless_failtry {R : Type} (w : World R)
    (x : XClient R) (hm : x.fail_mode ≠ FailMode.Failtry) :
    (XClient.call w x false).1 = some (XClient.acall w x).1 ∧
    (XClient.call w x false).2 = (XClient.acall w x).2 := by
  unfold XClient.call XClient.acall
  by_cases hk : x.selector x.selectCount = ""
  · simp [hk]
  · cases hg : XClient.get_cached_client w x.opt x.clients (x.selector x.selectCount) with
    | error e => simp [hk, hg]
    | ok p =>
      obtain ⟨cl, c⟩ := p
      cases hrt : w.behavior cl.addr cl.calls with
      | ok v => simp [hk, hg, hrt]
      | error e =>
        cases hfm : x.fail_mode
        all_goals first
        | exact absurd hfm hm
        | simp [hk, hg, hrt, hfm]

/-- C3 witness: under Failfast with an erroring connection, the blocking
call returns exactly what the non-blocking call resolves to, and both
leave the dispatcher in the same state. -/
theorem acall_matches_call_unless_failtry_witness :
    (XClient.call wBoom xFast false).1 = some ((XClient.acall wBoom xFast).1) ∧
    (XClient.call wBoom xFast false).2 = (XClient.acall wBoom xFast).2 :=
  acall_matches_call_unless_failtry wBoom xFast (by decide)

/-- C1 (code bug): under Failover with three candidate servers — the first
failing, the second and third healthy — the Failover arm of `call` is
empty, so the dispatcher performs exactly one selection (the counter ends
at 1, not at least 3) and returns the first server's error instead of
re-running selection and returning the healthy server's reply 7. -/
theorem failover_never_reselects :
    (XClient.call wOver xOver false).1 = some (Except.error "primary down") ∧
    (XClient.call wOver xOver false).2.selectCount = 1 ∧
    xOver.selector 1 = "s2" ∧
    wOver.behavior "s2" 0 = Except.ok 7 :=
  ⟨rfl, rfl, rfl, rfl⟩

/-- C9 (code bug): under Failbackup with a primary server that only times
out and a healthy distinct secondary, the Failbackup arm of `call` is
empty, so no backup call is ever issued: selection happens exactly once
and the primary's error is returned instead of the secondary's reply 9. -/
theorem failbackup_never_races :
    (XClient.call wBackup xBackup false).1 = some (Except.error "timeout") ∧
    (XClient.call wBackup xBackup false).2.selectCount = 1 ∧
    xBackup.selector 1 = "s2" ∧
    wBackup.behavior "s2" 0 = Except.ok 9 :=
  ⟨rfl, rfl, rfl, rfl⟩
